import Mathlib

/-!
Verification of the `hello_server` concurrency primitives of this repository:
the key/value `Cache` (src/homework/src/hello_server/cache.rs) and the
`ThreadPool` (src/homework/src/hello_server/thread_pool.rs).

The Rust code is shallowly embedded:

* `HashMap` values become association lists (`List (K × V)`) with
  insert-replaces-existing semantics.
* `Arc<V>` sharing is transparent for the value maps (values are cloned on
  return in the source, so only the payload matters).
* A call that `unwrap`s a `None` is modelled as the result `panicked`; a call
  that waits on a condition variable that no other thread can ever signal is
  modelled as the result `blocked`.
* For the claims about interleaved executions, a small-step two-thread machine
  follows the statements of `Cache::get_or_insert_with` line by line, with the
  two mutexes (`cond_per_key` and each per-key `Mutex<bool>`) modelled as
  explicit owner fields; a step that must acquire a held mutex is disabled.
* The thread pool is modelled as a labelled transition system over a pool
  state (queue, running jobs, job counter, channel open/closed), with one
  transition per statement group of the Rust source.
-/

set_option autoImplicit false

namespace HelloServer

/-! ## Association-list operations standing in for `HashMap` -/

/-- `HashMap::get` on an association list: first binding of the key wins. -/
def lookupKV {K V : Type} [DecidableEq K] : List (K × V) → K → Option V
  | [], _ => none
  | (k, v) :: rest, key => if k = key then some v else lookupKV rest key

/-- `HashMap::insert` on an association list: replaces an existing binding,
otherwise appends. -/
def insertKV {K V : Type} [DecidableEq K] : List (K × V) → K → V → List (K × V)
  | [], key, val => [(key, val)]
  | (k, v) :: rest, key, val =>
      if k = key then (key, val) :: rest else (k, v) :: insertKV rest key val

theorem lookupKV_insertKV_self {K V : Type} [DecidableEq K]
    (m : List (K × V)) (key : K) (val : V) :
    lookupKV (insertKV m key val) key = some val := by
  induction m with
  | nil => simp [insertKV, lookupKV]
  | cons hd tl ih =>
      obtain ⟨k, v⟩ := hd
      by_cases h : k = key <;> simp [insertKV, lookupKV, h, ih]

/-! ## Sequential model of `Cache` (cache.rs)

`Cache<K, V>` holds `inner : HashMap<K, Arc<V>>` (no lock, no interior
mutability) and `cond_per_key : Mutex<HashMap<K, Arc<(Mutex<bool>, Condvar)>>>`.
In the sequential model a call runs to completion without interference, so the
only observable part of a per-key token is its boolean payload. -/

/-- State of a `Cache<K, V>`: the backing value map `inner` and, for each key
that ever had a token created, the token's boolean flag (`true` = production
still in progress). -/
structure CacheState (K V : Type) where
  inner : List (K × V)
  cond_per_key : List (K × Bool)
deriving DecidableEq, Repr

/-- How a call to `get_or_insert_with` ends: returning a value, panicking
(an `unwrap` of `None`), or blocking forever on a wait that nothing can
signal. -/
inductive CallResult (V : Type) where
  | ok : V → CallResult V
  | panicked : CallResult V
  | blocked : CallResult V
deriving DecidableEq, Repr

/-- `Cache::get_or_insert_with(&self, key, f)`, cache.rs lines 41-84, run
sequentially (no interleaved call).

Line by line: the call clones `self.inner` into the local `inner_clone`
(line 42) and takes `inner_clone.entry(key)` (line 43).  In the
`Occupied` arm it returns the stored value (lines 46-50).  In the `Vacant`
arm it locks `cond_per_key` (line 53); if a token for the key exists
(line 54) it waits while the token's boolean is `true` (lines 57-61) — with
no concurrent producer that wait never ends, result `blocked` — and then
reads `inner_clone.get(&key).unwrap()` (line 62), a panic whenever the local
clone (taken before any production) lacks the key; if no token exists it
creates one with flag `true` (lines 67-68), runs `f` (line 71), inserts the
result into the **local** `inner_clone` only (line 72), flips the token flag
to `false` and notifies (lines 75-78), and returns the produced value
(line 80). -/
def get_or_insert_with {K V : Type} [DecidableEq K]
    (c : CacheState K V) (key : K) (f : K → V) : CallResult V × CacheState K V :=
  let inner_clone := c.inner
  match lookupKV inner_clone key with
  | some v => (.ok v, c)
  | none =>
      match lookupKV c.cond_per_key key with
      | some cond_bool =>
          if cond_bool then (.blocked, c)
          else
            match lookupKV inner_clone key with
            | some v => (.ok v, c)
            | none => (.panicked, c)
      | none =>
          let res := f key
          let _inner_clone' := insertKV inner_clone key res
          (.ok res, { c with cond_per_key := insertKV c.cond_per_key key false })

/-- The empty cache, `Cache::default()`. -/
def emptyCache (K V : Type) : CacheState K V := ⟨[], []⟩

/-! ### Claim C2 -/

/-- C2: every call to `Cache::get_or_insert_with` leaves the backing value map
`inner` unchanged — the produced value is inserted only into the local clone
`inner_clone` (cache.rs lines 42 and 72), so no call publishes a value into
the shared cache state. -/
theorem C2_inner_unchanged {K V : Type} [DecidableEq K]
    (c : CacheState K V) (key : K) (f : K → V) :
    (get_or_insert_with c key f).2.inner = c.inner := by
  cases h1 : lookupKV c.inner key with
  | some v => simp [get_or_insert_with, h1]
  | none =>
      cases h2 : lookupKV c.cond_per_key key with
      | some b =>
          cases b <;> simp [get_or_insert_with, h1, h2]
      | none => simp [get_or_insert_with, h1, h2]

/-- Witness for C2 at a concrete call on the empty cache. -/
theorem C2_inner_unchanged_witness :
    (get_or_insert_with (emptyCache Nat Nat) 7 (fun _ => 42)).2.inner =
      (emptyCache Nat Nat).inner :=
  C2_inner_unchanged (emptyCache Nat Nat) 7 (fun _ => 42)

/-! ### Claim C1 -/

/-- C1 fails on the code: on the empty cache, `get_or_insert_with 7 (fun _ => 42)`
returns `42` but publishes nothing, so the subsequent
`get_or_insert_with 7 (fun _ => 99)` finds the completed token, reads the key
from its still-empty clone of `inner`, and panics on the `unwrap` at
cache.rs line 62 — instead of returning `42` as the claim states. -/
theorem C1_second_call_panics :
    (get_or_insert_with (emptyCache Nat Nat) 7 (fun _ => 42)).1 = .ok 42 ∧
    (get_or_insert_with
        (get_or_insert_with (emptyCache Nat Nat) 7 (fun _ => 42)).2
        7 (fun _ => 99)).1 = .panicked := by
  constructor <;> rfl

/-! ## Model of `ThreadPool` (thread_pool.rs)

A `Job` is abstracted as an identifier together with whether its body panics
when run.  The pool state records the channel's queue, the multiset of jobs a
worker is currently executing, the jobs whose `finish_job` has run, the jobs
whose body panicked (so `finish_job` was skipped — thread_pool.rs lines
98-103 have no unwind guard), the `ThreadPoolInner::job_count`, and whether
`job_sender` is still `Some` (channel open). -/

structure Job where
  id : Nat
  panics : Bool
deriving DecidableEq, Repr

structure PoolState where
  queue : List Job
  running : List Job
  finished : List Job
  crashed : List Job
  job_count : Nat
  senderOpen : Bool
deriving DecidableEq, Repr

/-- The pool right after `ThreadPool::new`: empty queue, `job_count` 0
(thread_pool.rs line 88), channel open. -/
def initPool : PoolState :=
  { queue := [], running := [], finished := [], crashed := [],
    job_count := 0, senderOpen := true }

/-- `ThreadPool::execute` (thread_pool.rs lines 124-132): if `job_sender` has
been taken (`as_ref().unwrap()` on `None`, or `send` on a closed channel),
the call panics (`.error ()`); otherwise the job is appended to the channel's
queue and the call returns at once — nothing is run, no counter is touched. -/
def ThreadPool.execute (s : PoolState) (j : Job) : Except Unit PoolState :=
  if s.senderOpen then .ok { s with queue := s.queue ++ [j] } else .error ()

/-- `ThreadPoolInner::start_job` (lines 40-44): increment `job_count`. -/
def start_job (s : PoolState) : PoolState := { s with job_count := s.job_count + 1 }

/-- `ThreadPoolInner::finish_job` (lines 47-51): decrement `job_count`. -/
def finish_job (s : PoolState) : PoolState := { s with job_count := s.job_count - 1 }

/-- The exit condition of `ThreadPoolInner::wait_empty` (lines 57-62): the
wait loop returns exactly when the observed `job_count` is `0`; `join`
(line 137-139) is precisely this. -/
def wait_empty_returns (s : PoolState) : Bool := s.job_count = 0

/-- One atomic transition of the pool, one label per statement group of the
Rust source. -/
inductive PoolAct where
  /-- `ThreadPool::execute(f)` by a client thread. -/
  | exec (j : Job)
  /-- A worker's `receiver.recv()` returning `Ok(job)` followed by
  `inner.start_job()` (lines 96-100): dequeues the head job, increments the
  counter, and begins running the body. -/
  | dequeue
  /-- A running job's body returns normally and the worker calls
  `inner.finish_job()` (lines 101-102). -/
  | finishOk (j : Job)
  /-- A running job's body panics: the closure unwinds past line 102, so
  `finish_job` never runs and the worker thread dies. -/
  | bodyPanic (j : Job)
  /-- `drop(self.job_sender.take())` in `ThreadPool::drop` (line 146). -/
  | closeSender
deriving DecidableEq, Repr

/-- Apply one transition if it is enabled in state `s`. -/
def applyAct (s : PoolState) : PoolAct → Option PoolState
  | .exec j => (ThreadPool.execute s j).toOption
  | .dequeue =>
      match s.queue with
      | [] => none
      | j :: rest =>
          some (start_job { s with queue := rest, running := s.running ++ [j] })
  | .finishOk j =>
      if j ∈ s.running ∧ j.panics = false then
        some (finish_job
          { s with running := s.running.erase j, finished := s.finished ++ [j] })
      else none
  | .bodyPanic j =>
      if j ∈ s.running ∧ j.panics = true then
        some { s with running := s.running.erase j, crashed := s.crashed ++ [j] }
      else none
  | .closeSender => if s.senderOpen then some { s with senderOpen := false } else none

/-- Run a sequence of transitions from `s`; `none` if any step is disabled. -/
def runPool (s : PoolState) : List PoolAct → Option PoolState
  | [] => some s
  | a :: rest => (applyAct s a).bind fun s' => runPool s' rest

/-- A pool state is reachable if some interleaving of client and worker steps
produces it from the fresh pool. -/
def PoolReachable (s : PoolState) : Prop :=
  ∃ acts : List PoolAct, runPool initPool acts = some s

/-! ### Claims C5, C6, C7 -/

/-- A job whose body returns normally. -/
def j0 : Job := { id := 0, panics := false }

/-- A job whose body panics. -/
def jPanic : Job := { id := 1, panics := true }

/-- The pool state reached by submitting `j0` to a fresh pool before any
worker dequeues it: the job sits in the queue, yet `job_count` is still `0`
because `execute` never touches the counter — only a worker's `start_job`
after `recv` does. -/
def poolAfterOneExec : PoolState :=
  { queue := [j0], running := [], finished := [], crashed := [],
    job_count := 0, senderOpen := true }

/-- C5 fails on the code: after submitting one job to a fresh pool, the exit
condition of `wait_empty` (the loop `join` blocks on) already holds — the
counter is `0` because `execute` (lines 124-132) never increments it — while
the submitted job is still queued and has not executed.  So `join` can return
with a submitted job unfinished, contradicting the claim that `job_count = 0`
implies every submitted job has finished. -/
theorem C5_join_exit_before_job_runs :
    runPool initPool [PoolAct.exec j0] = some poolAfterOneExec ∧
    wait_empty_returns poolAfterOneExec = true ∧
    poolAfterOneExec.queue = [j0] ∧
    poolAfterOneExec.finished = [] := by
  decide

/-- C6 as stated is false: `poolAfterOneExec` is reachable, has
`job_count = 0`, yet its queue is non-empty — the counter reaches `0` while a
job is queued, because submission does not increment it. -/
theorem C6_counterexample :
    ¬ (∀ s : PoolState, PoolReachable s →
        (s.job_count = 0 ↔ s.queue = [] ∧ s.running = [])) := by
  intro h
  have hreach : PoolReachable poolAfterOneExec := ⟨[PoolAct.exec j0], by decide⟩
  have h0 : poolAfterOneExec.job_count = 0 := rfl
  have := (h poolAfterOneExec hreach).mp h0
  exact absurd this.1 (by decide)

/-- What the counter actually tracks: in every reachable pool state,
`job_count` equals the number of currently running jobs plus the number of
jobs that panicked mid-run (whose `finish_job` was skipped forever).  In
particular it is non-negative and ignores queued-but-undequeued jobs. -/
theorem C6_amended_counter_invariant (acts : List PoolAct) (s : PoolState)
    (h : runPool initPool acts = some s) :
    s.job_count = s.running.length + s.crashed.length := by
  suffices H : ∀ (l : List PoolAct) (t u : PoolState),
      t.job_count = t.running.length + t.crashed.length →
      runPool t l = some u → u.job_count = u.running.length + u.crashed.length from
    H acts initPool s rfl h
  intro l
  induction l with
  | nil => intro t u ht hu; cases hu; exact ht
  | cons a rest ih =>
      intro t u ht hu
      cases ha : applyAct t a with
      | none => simp [runPool, ha] at hu
      | some t' =>
          refine ih t' u ?_ (by simpa [runPool, ha] using hu)
          cases a with
          | exec j =>
              simp only [applyAct, ThreadPool.execute] at ha
              by_cases hs : t.senderOpen <;> simp [hs, Except.toOption] at ha
              subst ha; simpa using ht
          | dequeue =>
              simp only [applyAct] at ha
              cases hq : t.queue with
              | nil => simp [hq] at ha
              | cons j rest' =>
                  simp [hq, start_job] at ha
                  subst ha; simp [ht]; omega
          | finishOk j =>
              simp only [applyAct] at ha
              by_cases hc : j ∈ t.running ∧ j.panics = false
              · simp [hc, finish_job] at ha
                subst ha
                have hlen : (t.running.erase j).length = t.running.length - 1 :=
                  List.length_erase_of_mem hc.1
                have hpos : 0 < t.running.length := List.length_pos_of_mem hc.1
                simp [hlen]
                omega
              · simp [hc] at ha
          | bodyPanic j =>
              simp only [applyAct] at ha
              by_cases hc : j ∈ t.running ∧ j.panics = true
              · simp [hc] at ha
                subst ha
                have hlen : (t.running.erase j).length = t.running.length - 1 :=
                  List.length_erase_of_mem hc.1
                have hpos : 0 < t.running.length := List.length_pos_of_mem hc.1
                simp [hlen]
                omega
              · simp [hc] at ha
          | closeSender =>
              simp only [applyAct] at ha
              by_cases hs : t.senderOpen <;> simp [hs] at ha
              subst ha; simpa using ht

/-- The pool state with `j0` dequeued and running: reached by
`[exec j0, dequeue]`. -/
def poolOneRunning : PoolState :=
  { queue := [], running := [j0], finished := [], crashed := [],
    job_count := 1, senderOpen := true }

/-- Witness for the amended counter invariant at a concrete trace: submit and
dequeue one job, so one job is running, none has crashed, and the counter
is `1`. -/
theorem C6_amended_counter_invariant_witness :
    runPool initPool [PoolAct.exec j0, PoolAct.dequeue] = some poolOneRunning ∧
    poolOneRunning.job_count = poolOneRunning.running.length + poolOneRunning.crashed.length :=
  ⟨by decide,
   C6_amended_counter_invariant [PoolAct.exec j0, PoolAct.dequeue] poolOneRunning (by decide)⟩

/-- C7 fails on the code: the counter does increment when the job is dequeued
and before its body runs (first conjunct), but when the body panics the worker
unwinds past `inner.finish_job()` (thread_pool.rs line 102), so the counter is
never decremented: after the panicking body completes, `job_count` is still
`1` even though nothing is running any more. -/
theorem C7_no_decrement_on_panic :
    runPool initPool [PoolAct.exec jPanic, PoolAct.dequeue] =
      some { queue := [], running := [jPanic], finished := [], crashed := [],
             job_count := 1, senderOpen := true } ∧
    runPool initPool [PoolAct.exec jPanic, PoolAct.dequeue, PoolAct.bodyPanic jPanic] =
      some { queue := [], running := [], finished := [], crashed := [jPanic],
             job_count := 1, senderOpen := true } := by
  decide

/-! ### Claims C8, C9: worker lifecycle, construction, teardown

A `Worker` (thread_pool.rs lines 13-16) owns `thread : Option<JoinHandle<()>>`.
The only fact about a joined handle that teardown observes is whether the
thread had panicked, so a handle is modelled as `Option Bool`
(`some p` = handle still present, `p` = the thread panicked; `none` = already
taken/joined). -/

structure WorkerM where
  _id : Nat
  thread : Option Bool
deriving DecidableEq, Repr

/-- Whether `thread.join().unwrap()` on this worker's handle panics:
it does exactly when the handle is present and its thread panicked. -/
def joinOutcome (w : WorkerM) : Bool :=
  match w.thread with
  | none => false
  | some p => p

/-- The worker after its handle has been taken and joined
(`worker.thread.take()` followed by `join`). -/
def joinedWorker (w : WorkerM) : WorkerM := { w with thread := none }

/-- The `for worker in &mut self._workers` loop of `ThreadPool::drop`
(lines 148-153), together with what unwinding does when a `join().unwrap()`
panics: the loop takes and joins each handle in order; on the first panicking
join the loop unwinds, and the `Vec` of remaining workers is dropped, each
`Worker::drop` (lines 23-27) taking and joining its own handle.  Returns the
workers after teardown and whether teardown panicked. -/
def dropWorkers : List WorkerM → List WorkerM × Bool
  | [] => ([], false)
  | w :: ws =>
      if joinOutcome w then
        (joinedWorker w :: ws.map joinedWorker, true)
      else
        (joinedWorker w :: (dropWorkers ws).1, (dropWorkers ws).2)

/-- A `ThreadPool` as teardown sees it: its workers and whether `job_sender`
is still `Some` (channel open). -/
structure ThreadPoolM where
  workers : List WorkerM
  job_sender : Bool
deriving DecidableEq, Repr

/-- `ThreadPool::drop` (thread_pool.rs lines 145-154): first
`drop(self.job_sender.take())` closes the submission channel, then every
worker's handle is joined.  Returns the pool after teardown and whether
teardown itself panicked. -/
def dropThreadPool (p : ThreadPoolM) : ThreadPoolM × Bool :=
  ({ workers := (dropWorkers p.workers).1, job_sender := false },
   (dropWorkers p.workers).2)

theorem joinedWorker_thread (w : WorkerM) : (joinedWorker w).thread = none := rfl

theorem joinOutcome_eq (w : WorkerM) : joinOutcome w = (w.thread == some true) := by
  cases h : w.thread with
  | none => simp [joinOutcome, h]
  | some p => cases p <;> simp [joinOutcome, h]

theorem dropWorkers_all_joined (ws : List WorkerM) :
    ((dropWorkers ws).1.all fun w => w.thread.isNone) = true := by
  induction ws with
  | nil => simp [dropWorkers]
  | cons w ws ih =>
      by_cases h : joinOutcome w = true
      · simp only [dropWorkers, h, if_true]
        simp [List.all_map, joinedWorker, Function.comp]
      · simp only [dropWorkers, h, if_false, Bool.not_eq_true] at *
        simp [dropWorkers, h, joinedWorker, ih]

theorem dropWorkers_panic (ws : List WorkerM) :
    (dropWorkers ws).2 = (ws.any fun w => w.thread == some true) := by
  induction ws with
  | nil => simp [dropWorkers]
  | cons w ws ih =>
      cases h : joinOutcome w with
      | true => simp [dropWorkers, h, List.any_cons, ← joinOutcome_eq, h]
      | false => simp [dropWorkers, h, List.any_cons, ← joinOutcome_eq, h, ih]

/-- C8: dropping a `ThreadPool` closes the job-submission channel, joins every
worker's handle (no worker thread remains alive: every `thread` field is
`none` afterwards), and teardown itself panics exactly when some worker's
thread had panicked — a worker crash is surfaced, not swallowed. -/
theorem C8_drop_teardown (p : ThreadPoolM) :
    (dropThreadPool p).1.job_sender = false ∧
    ((dropThreadPool p).1.workers.all fun w => w.thread.isNone) = true ∧
    (dropThreadPool p).2 = (p.workers.any fun w => w.thread == some true) :=
  ⟨rfl, dropWorkers_all_joined p.workers, dropWorkers_panic p.workers⟩

/-- Witness for C8 at a concrete pool with one cleanly finished worker and one
panicked worker. -/
theorem C8_drop_teardown_witness :
    (dropThreadPool { workers := [{ _id := 0, thread := some false },
                                  { _id := 1, thread := some true }],
                      job_sender := true }).1.job_sender = false ∧
    ((dropThreadPool { workers := [{ _id := 0, thread := some false },
                                   { _id := 1, thread := some true }],
                       job_sender := true }).1.workers.all
        fun w => w.thread.isNone) = true ∧
    (dropThreadPool { workers := [{ _id := 0, thread := some false },
                                  { _id := 1, thread := some true }],
                      job_sender := true }).2 =
      ([{ _id := 0, thread := some false },
        ({ _id := 1, thread := some true } : WorkerM)].any
          fun w => w.thread == some true) :=
  C8_drop_teardown { workers := [{ _id := 0, thread := some false },
                                 { _id := 1, thread := some true }],
                     job_sender := true }

/-- `ThreadPool::new(size)` (thread_pool.rs lines 79-121): `assert!(size > 0)`
runs before anything else, so on failure the `.error` payload — the number of
worker threads spawned by the time of the panic — is `0`; otherwise the
`for idx in 0..size` loop pushes one freshly spawned (non-panicked) worker per
index. -/
def ThreadPool.new (size : Nat) : Except Nat (List WorkerM) :=
  if size > 0 then
    .ok ((List.range size).map fun idx => { _id := idx, thread := some false })
  else .error 0

/-- C9: `ThreadPool::new(size)` panics if and only if `size = 0`; the panic
happens with zero threads spawned (the error payload is the spawn count at
panic time); and for `size ≠ 0` it returns exactly `size` workers. -/
theorem C9_new_validation (size : Nat) :
    (size = 0 → ThreadPool.new size = .error 0) ∧
    (size ≠ 0 → (ThreadPool.new size).isOk = true) ∧
    (∀ ws, ThreadPool.new size = .ok ws → ws.length = size) := by
  refine ⟨fun h => by simp [ThreadPool.new, h], fun h => ?_, fun ws hws => ?_⟩
  · simp only [ThreadPool.new, Nat.pos_of_ne_zero h, if_true, Except.isOk, Except.toBool]
  · by_cases h : size > 0
    · simp [ThreadPool.new, h] at hws
      simp [← hws]
    · simp [ThreadPool.new, h] at hws

/-- Witness for C9 at `size = 0` and `size = 3`. -/
theorem C9_new_validation_witness :
    ThreadPool.new 0 = .error 0 ∧
    (ThreadPool.new 3).isOk = true ∧
    ((List.range 3).map fun idx => ({ _id := idx, thread := some false } : WorkerM)).length = 3 :=
  ⟨(C9_new_validation 0).1 rfl,
   (C9_new_validation 3).2.1 (by decide),
   (C9_new_validation 3).2.2 _ (by rfl)⟩

/-! ### Claim C10 -/

/-- C10: `ThreadPool::execute` with the channel open appends the job to the
queue and returns: the running, finished and crashed sets and the job counter
of the resulting state are untouched, so the call does not run the job or wait
for its completion.  With the channel closed (after `job_sender.take()` in
`drop`), the call panics (`.error ()`, the `unwrap` at line 128 or 131). -/
theorem C10_execute_behavior (s : PoolState) (j : Job) :
    (s.senderOpen = true →
      ThreadPool.execute s j = .ok { s with queue := s.queue ++ [j] }) ∧
    (s.senderOpen = false → ThreadPool.execute s j = .error ()) ∧
    (∀ s', ThreadPool.execute s j = .ok s' →
      s'.running = s.running ∧ s'.finished = s.finished ∧
      s'.crashed = s.crashed ∧ s'.job_count = s.job_count ∧
      s'.queue = s.queue ++ [j]) := by
  refine ⟨fun h => by simp [ThreadPool.execute, h], fun h => by simp [ThreadPool.execute, h],
    fun s' hs' => ?_⟩
  by_cases h : s.senderOpen
  · simp [ThreadPool.execute, h] at hs'
    simp [← hs']
  · simp [ThreadPool.execute, h] at hs'

/-- Witness for C10 on the fresh pool and on the same pool with the channel
closed. -/
theorem C10_execute_behavior_witness :
    ThreadPool.execute initPool j0 = .ok { initPool with queue := initPool.queue ++ [j0] } ∧
    ThreadPool.execute { initPool with senderOpen := false } j0 = .error () :=
  ⟨(C10_execute_behavior initPool j0).1 rfl,
   (C10_execute_behavior { initPool with senderOpen := false } j0).2.1 rfl⟩

/-! ## Two-thread interleaved model of `Cache::get_or_insert_with`

For the concurrency claims C3 and C4 the body of `get_or_insert_with` is cut
into atomic steps at its lock operations, with `K = V = Nat` and each thread's
producer `f = fun _ => fret` for a predetermined `fret`.  Thread identifiers
are `Bool` (`false` = thread 0, `true` = thread 1).  A step that must acquire
a mutex some thread holds is disabled (`none`). -/

namespace CacheConc

/-- Program points inside `get_or_insert_with`, one per statement group of
cache.rs. -/
inductive PC where
  /-- Lines 42-45: clone `self.inner`, take `inner_clone.entry(key)`. -/
  | start
  /-- Line 53: `self.cond_per_key.lock()`. -/
  | lockCond
  /-- Line 54: holding the token-map lock, `cond_mapper.contains_key(&key)`. -/
  | checkCond
  /-- Line 57: waiter locks the token's `Mutex<bool>`. -/
  | lockBool
  /-- Line 59: test `*cond_bool`. -/
  | loopTest
  /-- Line 60: the wait's argument `cond_elem.0.lock()` re-locks the bool
  mutex this thread already holds. -/
  | waitRelock
  /-- Line 62: `inner_clone.get(&key).unwrap()`, then both guards drop. -/
  | readVal
  /-- Line 71: invoke `f` and insert into the local clone (line 72) — the
  token-map lock is still held here. -/
  | runF
  /-- Lines 75-78: lock the bool mutex, set the flag `false`, `notify_all`,
  drop both guards, return the produced value. -/
  | setDone
  /-- The call has returned (or panicked). -/
  | finished
deriving DecidableEq, Repr

/-- Local state of one thread running `get_or_insert_with(key, fun _ => fret)`. -/
structure TState where
  pc : PC
  key : Nat
  fret : Nat
  innerClone : List (Nat × Nat)
  cvIdx : Nat
  res : Option (CallResult Nat)
  invokedF : Bool
deriving DecidableEq, Repr

/-- One `Arc<(Mutex<bool>, Condvar)>` token: the boolean payload and the
current owner of its mutex. -/
structure CondVar where
  flag : Bool
  boolOwner : Option Bool
deriving DecidableEq, Repr

/-- Shared state: `inner`, the `cond_per_key` mutex owner, the token map
(key to token index), the tokens, and the two threads. -/
structure GState where
  inner : List (Nat × Nat)
  condOwner : Option Bool
  condMap : List (Nat × Nat)
  cvs : List CondVar
  th0 : TState
  th1 : TState
deriving DecidableEq, Repr

def getTh (g : GState) (tid : Bool) : TState := if tid then g.th1 else g.th0

def setTh (g : GState) (tid : Bool) (t : TState) : GState :=
  if tid then { g with th1 := t } else { g with th0 := t }

/-- One atomic step of thread `tid`; `none` when the thread is finished or
its next statement must acquire a mutex that is currently held. -/
def stepThread (g : GState) (tid : Bool) : Option GState :=
  let t := getTh g tid
  match t.pc with
  | .finished => none
  | .start =>
      let clone := g.inner
      match lookupKV clone t.key with
      | some v =>
          some (setTh g tid { t with pc := .finished, innerClone := clone, res := some (.ok v) })
      | none => some (setTh g tid { t with pc := .lockCond, innerClone := clone })
  | .lockCond =>
      match g.condOwner with
      | some _ => none
      | none => some { setTh g tid { t with pc := .checkCond } with condOwner := some tid }
  | .checkCond =>
      match lookupKV g.condMap t.key with
      | some i => some (setTh g tid { t with pc := .lockBool, cvIdx := i })
      | none =>
          let i := g.cvs.length
          let g' := { g with condMap := insertKV g.condMap t.key i,
                             cvs := g.cvs ++ [{ flag := true, boolOwner := none }] }
          some (setTh g' tid { t with pc := .runF, cvIdx := i })
  | .runF =>
      some (setTh g tid
        { t with pc := .setDone, innerClone := insertKV t.innerClone t.key t.fret,
                 invokedF := true })
  | .setDone =>
      match g.cvs[t.cvIdx]? with
      | none => none
      | some cv =>
          match cv.boolOwner with
          | some _ => none
          | none =>
              let g' := { g with cvs := g.cvs.set t.cvIdx { cv with flag := false },
                                 condOwner := none }
              some (setTh g' tid { t with pc := .finished, res := some (.ok t.fret) })
  | .lockBool =>
      match g.cvs[t.cvIdx]? with
      | none => none
      | some cv =>
          match cv.boolOwner with
          | some _ => none
          | none =>
              let g' := { g with cvs := g.cvs.set t.cvIdx { cv with boolOwner := some tid } }
              some (setTh g' tid { t with pc := .loopTest })
  | .loopTest =>
      match g.cvs[t.cvIdx]? with
      | none => none
      | some cv =>
          if cv.flag then some (setTh g tid { t with pc := .waitRelock })
          else some (setTh g tid { t with pc := .readVal })
  | .waitRelock =>
      match g.cvs[t.cvIdx]? with
      | none => none
      | some cv =>
          match cv.boolOwner with
          | some _ => none
          | none => some (setTh g tid { t with pc := .loopTest })
  | .readVal =>
      match g.cvs[t.cvIdx]? with
      | none => none
      | some cv =>
          let r := match lookupKV t.innerClone t.key with
                   | some v => CallResult.ok v
                   | none => CallResult.panicked
          let g' := { g with cvs := g.cvs.set t.cvIdx { cv with boolOwner := none },
                             condOwner := none }
          some (setTh g' tid { t with pc := .finished, res := some r })

/-- A thread about to call `get_or_insert_with key (fun _ => fret)`. -/
def initT (key fret : Nat) : TState :=
  { pc := .start, key := key, fret := fret, innerClone := [], cvIdx := 0,
    res := none, invokedF := false }

/-- Fresh cache (`Cache::default()`), thread 0 on `(k0, f0)` and thread 1 on
`(k1, f1)`. -/
def initG (k0 f0 k1 f1 : Nat) : GState :=
  { inner := [], condOwner := none, condMap := [], cvs := [],
    th0 := initT k0 f0, th1 := initT k1 f1 }

/-- Run a schedule (a list of thread ids); `none` if some scheduled step is
disabled. -/
def runConc (g : GState) : List Bool → Option GState
  | [] => some g
  | tid :: rest => (stepThread g tid).bind fun g' => runConc g' rest

/-! ### Claim C3 -/

/-- The execution of two callers of `get_or_insert_with` on the same absent
key `5`: thread 0 runs its call to completion (producing `42`), then
thread 1 runs its call to completion. -/
def finalSameKey : Option GState :=
  runConc (initG 5 42 5 99)
    [false, false, false, false, false, true, true, true, true, true, true]

/-- C3 fails on the code: with two concurrent callers of the same absent key,
the producer does run only once (thread 1 never invokes its `f`), but the
callers do not all receive that value — thread 0 returns `42` while thread 1,
woken after the token's flag is cleared, reads the key from its own empty
clone of `inner` and panics on the `unwrap` at cache.rs line 62. -/
theorem C3_waiter_panics :
    (finalSameKey.map fun g =>
        (g.th0.res, g.th1.res, g.th0.invokedF, g.th1.invokedF)) =
      some (some (.ok 42), some .panicked, true, false) := by
  rfl

/-! ### Claim C4 -/

/-- Thread 0 requests absent key `3`, thread 1 requests absent key `4`;
thread 0 takes three steps, reaching the invocation of its producer, then
thread 1 takes one step, reaching its attempt to lock the token map. -/
def finalDistinctKeys : Option GState :=
  runConc (initG 3 42 4 99) [false, false, false, true]

/-- C4 fails on the code: the producer is invoked while the global
`cond_per_key` lock is held (thread 0 is at the producer-invocation point and
owns the token-map mutex), and the concurrent caller of the *different* key
`4` is stopped at `self.cond_per_key.lock()` with its step disabled — so a
call for one key does block a concurrent call for another key while the
first producer runs. -/
theorem C4_distinct_key_blocked :
    (finalDistinctKeys.map fun g => (g.th0.pc, g.condOwner, g.th1.pc)) =
      some (.runF, some false, .lockCond) ∧
    (finalDistinctKeys.bind fun g => stepThread g true) = none := by
  constructor <;> rfl

end CacheConc

end HelloServer
